import Mathlib

/-!
Verification of the poker_app client-side session core
(`src/frontend/src/app/rooms/[roomId]/page.tsx`, current revision in
`src/unnamed/part_003`): connection life-cycle, message router,
derived-state projector and outbound-action gateway.

The TypeScript event handlers are embedded shallowly: each React/WebSocket
callback becomes a Lean function on an explicit state record, and the
single-threaded event loop becomes a fold of a step function over a list of
environment events (socket open/close/error, reconnect-timer firings,
component teardown).
-/

namespace PokerClient

/-- Connection status values held in the `connectionStatus` string state.
The source stores Japanese UI strings; the constructors correspond to
'接続中...' (connecting), '接続済み' (connected), '切断' (disconnected)
and 'エラー' (error). -/
inductive ConnStatus where
  | connecting
  | connected
  | disconnected
  | errored
deriving DecidableEq

/-- The reconnect delay passed to `setTimeout(connectWebSocket, 3000)`
in milliseconds. -/
def reconnectDelayMs : Nat := 3000

/-- State of the connection manager in the room page: the `reconnectAttempt`
ref, the `connectionStatus` state, the queue of pending
`setTimeout(connectWebSocket, 3000)` callbacks (each entry is the scheduled
delay), whether the fatal `setError('サーバーとの接続が切れました。...')`
has fired, whether `setWs(socket)` has run, and whether the effect cleanup
(unmount) has run.  `socketsConstructed` and `constructedAfterTeardown`
are history counters of `new WebSocket(...)` constructions, the latter
counting constructions that happen after the cleanup ran.  `totalRetries`
counts how many reconnect timers were ever scheduled. -/
structure ConnState where
  reconnectAttempt : Nat
  status : ConnStatus
  pendingReconnects : List Nat
  fatalError : Bool
  wsSet : Bool
  tornDown : Bool
  socketsConstructed : Nat
  constructedAfterTeardown : Nat
  totalRetries : Nat
deriving DecidableEq

/-- The body of `connectWebSocket()`: sets the status to connecting and
constructs a `new WebSocket(...)`.  The function contains no guard at all:
it runs the same whether or not the component has been torn down. -/
def connectWebSocket (s : ConnState) : ConnState :=
  { s with
    status := ConnStatus.connecting
    socketsConstructed := s.socketsConstructed + 1
    constructedAfterTeardown :=
      s.constructedAfterTeardown + (if s.tornDown then 1 else 0) }

/-- Environment events delivered to the single-threaded event loop.
`socketClose` carries the close code of the underlying CloseEvent; the
registered `socket.onclose = () => ...` handler takes no parameter, so the
code is available to it but never read. -/
inductive ConnEvent where
  | socketOpen
  | socketClose (code : Nat)
  | socketError
  | timerFire
  | teardown
deriving DecidableEq

/-- One step of the connection manager, translated handler by handler from
the room page:
* `socketOpen`: `setConnectionStatus('接続済み'); setWs(socket);
  reconnectAttempt.current = 0;`
* `socketClose`: `setConnectionStatus('切断'); if (reconnectAttempt.current
  < 5) { reconnectAttempt.current++; setTimeout(connectWebSocket, 3000); }
  else { setError('サーバーとの接続が切れました。...'); }` — note the
  handler ignores the event's close code;
* `socketError`: `setConnectionStatus('エラー');`
* `timerFire`: one pending `setTimeout` callback elapses and runs
  `connectWebSocket` (a no-op step if no timer is pending);
* `teardown`: the effect cleanup `() => { reconnectAttempt.current = 5;
  ws?.close(); }` — the `ws?.close()` call is modelled by the environment
  later delivering a `socketClose` for that socket; the cleanup clears no
  pending timer. -/
def connStep (s : ConnState) (e : ConnEvent) : ConnState :=
  match e with
  | ConnEvent.socketOpen =>
      { s with status := ConnStatus.connected, wsSet := true,
               reconnectAttempt := 0 }
  | ConnEvent.socketClose _ =>
      let s1 := { s with status := ConnStatus.disconnected }
      if s1.reconnectAttempt < 5 then
        { s1 with reconnectAttempt := s1.reconnectAttempt + 1,
                  pendingReconnects := s1.pendingReconnects ++ [reconnectDelayMs],
                  totalRetries := s1.totalRetries + 1 }
      else
        { s1 with fatalError := true }
  | ConnEvent.socketError =>
      { s with status := ConnStatus.errored }
  | ConnEvent.timerFire =>
      match s.pendingReconnects with
      | [] => s
      | _ :: rest => connectWebSocket { s with pendingReconnects := rest }
  | ConnEvent.teardown =>
      { s with tornDown := true, reconnectAttempt := 5 }

/-- Initial state at effect mount: `reconnectAttempt` ref initialised to 0,
no timers, no error, then the effect body runs `connectWebSocket()`. -/
def connInit : ConnState :=
  connectWebSocket
    { reconnectAttempt := 0
      status := ConnStatus.connecting
      pendingReconnects := []
      fatalError := false
      wsSet := false
      tornDown := false
      socketsConstructed := 0
      constructedAfterTeardown := 0
      totalRetries := 0 }

/-- Run the event loop from mount over a list of environment events. -/
def connRun (evs : List ConnEvent) : ConnState :=
  evs.foldl connStep connInit

/-- Five consecutive abnormal closes with no intervening successful open:
the initial socket closes, each scheduled retry's socket closes again
before ever opening. -/
def fiveCloseTrace : List ConnEvent :=
  [ConnEvent.socketClose 1006, ConnEvent.timerFire,
   ConnEvent.socketClose 1006, ConnEvent.timerFire,
   ConnEvent.socketClose 1006, ConnEvent.timerFire,
   ConnEvent.socketClose 1006, ConnEvent.timerFire,
   ConnEvent.socketClose 1006]

/-- Six consecutive abnormal closes with no intervening successful open:
the initial close plus five failed retries. -/
def sixCloseTrace : List ConnEvent :=
  fiveCloseTrace ++ [ConnEvent.timerFire, ConnEvent.socketClose 1006]

/-- Teardown while one reconnect timer is pending: the initial socket
closes abnormally (scheduling a retry), the component unmounts, then the
pending timer fires. -/
def zombieTrace : List ConnEvent :=
  [ConnEvent.socketClose 1006, ConnEvent.teardown, ConnEvent.timerFire]

/-- A close while the counter is below 5 increments it, appends one timer
with the fixed 3000 ms delay, and does not surface the fatal error. -/
theorem connStep_close_lt (s : ConnState) (c : Nat)
    (h : s.reconnectAttempt < 5) :
    (connStep s (ConnEvent.socketClose c)).reconnectAttempt
        = s.reconnectAttempt + 1
      ∧ (connStep s (ConnEvent.socketClose c)).pendingReconnects
        = s.pendingReconnects ++ [reconnectDelayMs]
      ∧ (connStep s (ConnEvent.socketClose c)).fatalError = s.fatalError := by
  simp [connStep, h]

/-- No step raises the reconnect counter above 5. -/
theorem connStep_attempt_le (s : ConnState) (e : ConnEvent)
    (h : s.reconnectAttempt ≤ 5) :
    (connStep s e).reconnectAttempt ≤ 5 := by
  cases e with
  | socketOpen => simp [connStep]
  | socketClose c =>
      by_cases h5 : s.reconnectAttempt < 5 <;> simp [connStep, h5] <;> omega
  | socketError => simpa [connStep] using h
  | timerFire =>
      cases hp : s.pendingReconnects with
      | nil => simpa [connStep, hp] using h
      | cons d rest => simpa [connStep, hp, connectWebSocket] using h
  | teardown => simp [connStep]

/-- The counter bound is preserved along any run of the event loop. -/
theorem connFold_attempt_le (evs : List ConnEvent) (s : ConnState)
    (h : s.reconnectAttempt ≤ 5) :
    (evs.foldl connStep s).reconnectAttempt ≤ 5 := by
  induction evs generalizing s with
  | nil => simpa using h
  | cons e rest ih =>
      exact ih (connStep s e) (connStep_attempt_le s e h)

/-- Claim C1 (as stated, refuted): after 5 consecutive abnormal closes with
no intervening successful open, the manager has NOT surfaced the fatal
"connection lost" condition — instead the counter sits at 5 with a 5th
retry timer still pending.  Termination only happens on the next close. -/
theorem c1_five_closes_not_terminated :
    (connRun fiveCloseTrace).fatalError = false
      ∧ (connRun fiveCloseTrace).pendingReconnects = [reconnectDelayMs]
      ∧ (connRun fiveCloseTrace).reconnectAttempt = 5 := by
  decide

/-- Claim C1 (amended): a successful open resets the counter to 0; each
close while the counter is below 5 increments it and schedules a reopen
after the fixed 3000 ms delay; and after SIX consecutive abnormal closes
with no intervening open (the initial close plus five failed retries) the
manager surfaces the fatal "connection lost" condition, holds no pending
retry, and has issued exactly 5 retries in total — no 6th retry. -/
theorem c1_reconnect_policy (s : ConnState) (c : Nat) :
    (connStep s ConnEvent.socketOpen).reconnectAttempt = 0
      ∧ (s.reconnectAttempt < 5 →
          (connStep s (ConnEvent.socketClose c)).reconnectAttempt
              = s.reconnectAttempt + 1
            ∧ (connStep s (ConnEvent.socketClose c)).pendingReconnects
              = s.pendingReconnects ++ [reconnectDelayMs]
            ∧ (connStep s (ConnEvent.socketClose c)).fatalError = s.fatalError)
      ∧ (connRun sixCloseTrace).fatalError = true
      ∧ (connRun sixCloseTrace).pendingReconnects = []
      ∧ (connRun sixCloseTrace).totalRetries = 5 := by
  refine ⟨by simp [connStep], fun h => connStep_close_lt s c h, by decide,
    by decide, by decide⟩

/-- Instantiation of `c1_reconnect_policy` at the mount state with close
code 1006, discharging the counter hypothesis. -/
theorem c1_reconnect_policy_witness :
    connInit.reconnectAttempt < 5
      ∧ (connStep connInit (ConnEvent.socketClose 1006)).reconnectAttempt
        = connInit.reconnectAttempt + 1 :=
  ⟨by decide, ((c1_reconnect_policy connInit 1006).2.1 (by decide)).1⟩

/-- Claim C2 (as stated, refuted): a close with the normal code 1000 on the
fresh connection schedules a reconnect timer, although the claim says a
1000 close suppresses reconnection entirely. -/
theorem c2_normal_close_schedules_retry :
    (connRun [ConnEvent.socketClose 1000]).pendingReconnects
        = [reconnectDelayMs]
      ∧ (connRun [ConnEvent.socketClose 1000]).pendingReconnects ≠ [] := by
  decide

/-- Claim C2 (amended): the close handler of the current room page ignores
the close code entirely — the step is the same function for every code —
so every close while the counter is below 5, the normal (1000) and
going-away (1001) codes included, schedules a retry. -/
theorem c2_close_code_ignored (s : ConnState) (c c' : Nat) :
    connStep s (ConnEvent.socketClose c) = connStep s (ConnEvent.socketClose c')
      ∧ (s.reconnectAttempt < 5 →
          (connStep s (ConnEvent.socketClose 1000)).pendingReconnects
              = s.pendingReconnects ++ [reconnectDelayMs]
            ∧ (connStep s (ConnEvent.socketClose 1001)).pendingReconnects
              = s.pendingReconnects ++ [reconnectDelayMs]) := by
  refine ⟨rfl, fun h => ⟨(connStep_close_lt s 1000 h).2.1,
    (connStep_close_lt s 1001 h).2.1⟩⟩

/-- Instantiation of `c2_close_code_ignored` at the mount state,
discharging the counter hypothesis. -/
theorem c2_close_code_ignored_witness :
    connInit.reconnectAttempt < 5
      ∧ (connStep connInit (ConnEvent.socketClose 1000)).pendingReconnects
        = connInit.pendingReconnects ++ [reconnectDelayMs] :=
  ⟨by decide, ((c2_close_code_ignored connInit 1000 1001).2 (by decide)).1⟩

/-- Claim C3 (code bug): teardown while a reconnect timer is pending does
saturate the counter to 5, yet when the uncancelled timer fires it runs
`connectWebSocket` unconditionally and a new transport is constructed
after teardown — and if that zombie transport then opens, its `onopen`
even resets the counter back to 0. -/
theorem c3_zombie_transport_after_teardown :
    (connRun zombieTrace).tornDown = true
      ∧ (connRun zombieTrace).reconnectAttempt = 5
      ∧ (connRun zombieTrace).constructedAfterTeardown = 1
      ∧ (connStep (connRun zombieTrace) ConnEvent.socketOpen).reconnectAttempt
        = 0 := by
  decide

/-- Claim C10: the reconnect counter starts at 0 and stays within [0, 5] on
every run (it is a natural number: no handler ever decrements it); it is
set to exactly 5 on teardown, and a close increments it only when it is
strictly below 5. -/
theorem c10_counter_invariant :
    connInit.reconnectAttempt = 0
      ∧ (∀ evs : List ConnEvent, (connRun evs).reconnectAttempt ≤ 5)
      ∧ (∀ s : ConnState,
          (connStep s ConnEvent.teardown).reconnectAttempt = 5)
      ∧ (∀ (s : ConnState) (c : Nat),
          (connStep s (ConnEvent.socketClose c)).reconnectAttempt
            = if s.reconnectAttempt < 5 then s.reconnectAttempt + 1
              else s.reconnectAttempt) := by
  refine ⟨rfl, fun evs => connFold_attempt_le evs connInit (by decide),
    fun s => rfl, fun s c => ?_⟩
  by_cases h5 : s.reconnectAttempt < 5 <;> simp [connStep, h5]

/-- One entry of `GameState.players`, as the room page reads it
(`p.username`, `p.stack`, `p.hand`, `p.is_active`, `p.current_bet`);
the spec calls this PlayerView. -/
structure PlayerState where
  username : String
  stack : Int
  hand : List String
  is_active : Bool
  current_bet : Int
deriving DecidableEq

/-- The table snapshot held in the `gameState` state, with the fields the
room page reads: `players`, `community_cards`, `pot`,
`current_turn_username` (nullable), `status`, `current_bet`,
`dealer_index`, `winner_message` (nullable); the spec calls this
TableSnapshot. -/
structure GameState where
  players : List PlayerState
  community_cards : List String
  pot : Int
  current_turn_username : Option String
  status : String
  current_bet : Int
  dealer_index : Nat
  winner_message : Option String
deriving DecidableEq

/-- Result of `JSON.parse(event.data)` followed by reading `.type`, for the
`socket.onmessage` switch: the three recognised tags with the payload
shapes the protocol delivers, or `other` for a successfully parsed value
whose `type` matches none of the three cases (the switch has no default
branch, so no payload validation beyond the tag happens). -/
inductive ParsedMessage where
  | chatMessage (payload : String)
  | gameStateUpdate (payload : GameState)
  | dealHand (cards : List String)
  | other (tag : String)
deriving DecidableEq

/-- The three pieces of state the message handler mutates: the chat log
(`chatMessages`, oldest first), the held snapshot (`gameState`) and the
private hand (`myHand`). -/
structure RouterState where
  chatMessages : List String
  gameState : Option GameState
  myHand : List String
deriving DecidableEq

/-- The `useState` initial values: `[]`, `null`, `[]`. -/
def initialRouterState : RouterState :=
  { chatMessages := [], gameState := none, myHand := [] }

/-- The `socket.onmessage` handler: `data` is the raw `event.data` text and
`parsed` the outcome of `JSON.parse` (`none` when the parse throws, caught
by the surrounding try/catch).  `ChatMessage` appends its payload to the
chat log, `GameStateUpdate` stores its payload as the new snapshot,
`DealHand` stores its card list as the private hand, an unmatched tag
falls through the switch leaving the state unchanged, and a parse failure
appends the raw text to the chat log. -/
def onmessage (st : RouterState) (data : String) (parsed : Option ParsedMessage) :
    RouterState :=
  match parsed with
  | some (ParsedMessage.chatMessage payload) =>
      { st with chatMessages := st.chatMessages ++ [payload] }
  | some (ParsedMessage.gameStateUpdate payload) =>
      { st with gameState := some payload }
  | some (ParsedMessage.dealHand cards) =>
      { st with myHand := cards }
  | some (ParsedMessage.other _) => st
  | none =>
      { st with chatMessages := st.chatMessages ++ [data] }

/-- `readyState` values of a WebSocket handle, mirroring the constants
`WebSocket.CONNECTING/OPEN/CLOSING/CLOSED`. -/
inductive ReadyState where
  | CONNECTING
  | OPEN
  | CLOSING
  | CLOSED
deriving DecidableEq

/-- The guard `ws?.readyState === WebSocket.OPEN` (`ws` is `null` before
the first `setWs`). -/
def wsIsOpen : Option ReadyState → Bool
  | some ReadyState.OPEN => true
  | _ => false

/-- The `disabled={ws?.readyState !== WebSocket.OPEN}` attribute on the
chat input and its submit button. -/
def chatControlsDisabled (ws : Option ReadyState) : Bool :=
  !(wsIsOpen ws)

/-- Payload of an outbound `PlayerAction` frame as built by the click
handlers: Fold, Call, Bet with its amount, StartGame, NextHand. -/
inductive ActionPayload where
  | fold
  | call
  | bet (amount : Int)
  | startGame
  | nextHand
deriving DecidableEq

/-- An outbound frame: either a PlayerAction message or a ChatMessage. -/
inductive OutboundFrame where
  | playerAction (a : ActionPayload)
  | chatMessage (text : String)
deriving DecidableEq

/-- `handlePlayerAction`: sends the PlayerAction frame iff the held socket
reports OPEN; otherwise nothing happens (nothing is stored or queued). -/
def handlePlayerAction (ws : Option ReadyState) (a : ActionPayload) :
    Option OutboundFrame :=
  if wsIsOpen ws then some (OutboundFrame.playerAction a) else none

/-- `handleStartGame`: sends a StartGame PlayerAction frame iff OPEN. -/
def handleStartGame (ws : Option ReadyState) : Option OutboundFrame :=
  if wsIsOpen ws then some (OutboundFrame.playerAction ActionPayload.startGame)
  else none

/-- `handleSendMessage`: when the socket is OPEN and the trimmed input is
non-empty, sends the ChatMessage frame (with the untrimmed input as
payload) and clears the input; otherwise sends nothing and leaves the
input as it was.  Returns (frame sent, chat input afterwards). -/
def handleSendMessage (ws : Option ReadyState) (chatInput : String) :
    Option OutboundFrame × String :=
  if wsIsOpen ws && !(chatInput.trim == "") then
    (some (OutboundFrame.chatMessage chatInput), "")
  else (none, chatInput)

/-- The `min` attribute put on the bet-amount number input:
`gameState.current_bet * 2`.  It is a UI attribute on the input element
only; the Bet button's click handler never reads it. -/
def betInputMin (gs : GameState) : Int :=
  gs.current_bet * 2

/-- Clicking the Bet button: `handlePlayerAction({ action: 'Bet', amount:
betAmount })` — no amount check of any kind. -/
def clickBetButton (ws : Option ReadyState) (betAmount : Int) :
    Option OutboundFrame :=
  handlePlayerAction ws (ActionPayload.bet betAmount)

/-- `myPlayerState`: `gameState?.players.find(p => p.username ===
username)`. -/
def myPlayerState (gs : Option GameState) (username : String) :
    Option PlayerState :=
  match gs with
  | none => none
  | some g => g.players.find? (fun p => p.username == username)

/-- The action-area render condition: `gameState &&
gameState.current_turn_username === username && myPlayerState`. -/
def showActionArea (gs : Option GameState) (username : String) : Bool :=
  match gs with
  | none => false
  | some g =>
      (g.current_turn_username == some username)
        && (myPlayerState gs username).isSome

/-- `isDealer`: `index === gameState.dealer_index`. -/
def isDealer (gs : GameState) (index : Nat) : Bool :=
  index == gs.dealer_index

/-- `isSB`: `index === (gameState.dealer_index + 1) %
gameState.players.length`. -/
def isSB (gs : GameState) (index : Nat) : Bool :=
  index == (gs.dealer_index + 1) % gs.players.length

/-- `isBB`: `index === (gameState.dealer_index + 2) %
gameState.players.length`. -/
def isBB (gs : GameState) (index : Nat) : Bool :=
  index == (gs.dealer_index + 2) % gs.players.length

/-- A concrete four-player table used to instantiate theorems: dealer at
index 3, table current bet 10. -/
def sampleGameState : GameState :=
  { players :=
      [ { username := "alice", stack := 100, hand := [], is_active := true,
          current_bet := 0 }
      , { username := "bob", stack := 90, hand := [], is_active := true,
          current_bet := 10 }
      , { username := "carol", stack := 80, hand := [], is_active := true,
          current_bet := 10 }
      , { username := "dave", stack := 70, hand := [], is_active := false,
          current_bet := 0 } ]
    community_cards := ["Ah", "Kd", "7s"]
    pot := 30
    current_turn_username := some "alice"
    status := "Playing"
    current_bet := 10
    dealer_index := 3
    winner_message := none }

/-- Claim C4 (as stated, refuted): a frame that parses as JSON but whose
`type` matches no case of the switch (a non-conforming payload) is
silently discarded — the state is unchanged and nothing is appended to
the chat log, contradicting "appends the raw payload verbatim" and "no
inbound payload is silently discarded". -/
theorem c4_nonconforming_frame_dropped :
    onmessage initialRouterState "unknown-type-frame"
        (some (ParsedMessage.other "Pong")) = initialRouterState
      ∧ (onmessage initialRouterState "unknown-type-frame"
            (some (ParsedMessage.other "Pong"))).chatMessages
        ≠ initialRouterState.chatMessages ++ ["unknown-type-frame"] := by
  decide

/-- Claim C4 (amended): a frame whose payload throws on `JSON.parse` is
appended verbatim to the chat log with no exception and no change to the
held snapshot or private hand; a frame that parses but carries an
unrecognised tag is silently ignored (the state is left unchanged). -/
theorem c4_decode_failure_degrades (st : RouterState) (d t : String) :
    onmessage st d none = { st with chatMessages := st.chatMessages ++ [d] }
      ∧ (onmessage st d none).gameState = st.gameState
      ∧ (onmessage st d none).myHand = st.myHand
      ∧ onmessage st d (some (ParsedMessage.other t)) = st :=
  ⟨rfl, rfl, rfl, rfl⟩

/-- Claim C9: a `GameStateUpdate` replaces the held snapshot wholesale
(the stored snapshot is exactly the inbound payload, never a field merge
with the previous one) and leaves the private hand and the chat log
unchanged; across all inbound events, the private hand either survives
unchanged or the event was a `DealHand` whose card list becomes the new
hand. -/
theorem c9_wholesale_replacement (st : RouterState) (d : String)
    (gs : GameState) (p : Option ParsedMessage) :
    onmessage st d (some (ParsedMessage.gameStateUpdate gs))
        = { st with gameState := some gs }
      ∧ (onmessage st d (some (ParsedMessage.gameStateUpdate gs))).myHand
        = st.myHand
      ∧ (onmessage st d (some (ParsedMessage.gameStateUpdate gs))).chatMessages
        = st.chatMessages
      ∧ ((onmessage st d p).myHand = st.myHand
          ∨ ∃ cards, p = some (ParsedMessage.dealHand cards)
              ∧ (onmessage st d p).myHand = cards) := by
  refine ⟨rfl, rfl, rfl, ?_⟩
  match p with
  | none => exact Or.inl rfl
  | some (ParsedMessage.chatMessage _) => exact Or.inl rfl
  | some (ParsedMessage.gameStateUpdate _) => exact Or.inl rfl
  | some (ParsedMessage.dealHand cards) => exact Or.inr ⟨cards, rfl, rfl⟩
  | some (ParsedMessage.other _) => exact Or.inl rfl

/-- Claim C5 (as stated, refuted): with the table current bet at 10, a
requested Bet of 10 (= currentBet, below the 2×currentBet input minimum)
IS transmitted while the connection is open — the click handler performs
no amount check, so nothing is rejected locally. -/
theorem c5_undersized_bet_transmitted :
    sampleGameState.current_bet = 10
      ∧ (10 : Int) < betInputMin sampleGameState
      ∧ clickBetButton (some ReadyState.OPEN) 10
        = some (OutboundFrame.playerAction (ActionPayload.bet 10)) := by
  decide

/-- Claim C5 (amended): the bet input advertises `2 × currentBet` as its
`min` attribute, but that is the only client-side bound; the Bet click
handler transmits every requested amount while the connection is open
(including amounts below the minimum) and transmits nothing when it is
not open. -/
theorem c5_bet_gateway (ws : Option ReadyState) (amount : Int)
    (gs : GameState) :
    betInputMin gs = 2 * gs.current_bet
      ∧ (wsIsOpen ws = true →
          clickBetButton ws amount
            = some (OutboundFrame.playerAction (ActionPayload.bet amount)))
      ∧ (wsIsOpen ws = false → clickBetButton ws amount = none) := by
  refine ⟨mul_comm _ _, fun h => ?_, fun h => ?_⟩ <;>
    simp [clickBetButton, handlePlayerAction, h]

/-- Instantiation of `c5_bet_gateway` on an open connection. -/
theorem c5_bet_gateway_witness :
    wsIsOpen (some ReadyState.OPEN) = true
      ∧ clickBetButton (some ReadyState.OPEN) 7
        = some (OutboundFrame.playerAction (ActionPayload.bet 7)) :=
  ⟨rfl, (c5_bet_gateway (some ReadyState.OPEN) 7 sampleGameState).2.1 rfl⟩

/-- Claim C6: for any table with `n ≥ 1` players and
`dealer_index ∈ [0, n)`, the seat-role derivation labels the dealer at
`dealer_index`, the small blind at `(dealer_index+1) mod n` and the big
blind at `(dealer_index+2) mod n`, each of those indices lying in
`[0, n)`; for `n = 1` all three labels land on the same seat. -/
theorem c6_seat_roles (gs : GameState)
    (h1 : 1 ≤ gs.players.length)
    (h2 : gs.dealer_index < gs.players.length) :
    isDealer gs gs.dealer_index = true
      ∧ (gs.dealer_index + 1) % gs.players.length < gs.players.length
      ∧ (gs.dealer_index + 2) % gs.players.length < gs.players.length
      ∧ isSB gs ((gs.dealer_index + 1) % gs.players.length) = true
      ∧ isBB gs ((gs.dealer_index + 2) % gs.players.length) = true
      ∧ (gs.players.length = 1 →
          (gs.dealer_index + 1) % gs.players.length = gs.dealer_index
            ∧ (gs.dealer_index + 2) % gs.players.length = gs.dealer_index) := by
  have hn : 0 < gs.players.length := h1
  refine ⟨by simp [isDealer], Nat.mod_lt _ hn, Nat.mod_lt _ hn,
    by simp [isSB], by simp [isBB], fun h => ?_⟩
  have hd : gs.dealer_index = 0 := by omega
  rw [h, hd]
  simp [Nat.mod_one]

/-- Instantiation of `c6_seat_roles` at the four-player table with the
dealer at index 3: the small blind wraps to index 0 and the big blind to
index 1 (the spec's wrap-around scenario). -/
theorem c6_seat_roles_witness :
    1 ≤ sampleGameState.players.length
      ∧ sampleGameState.dealer_index < sampleGameState.players.length
      ∧ isSB sampleGameState 0 = true
      ∧ isBB sampleGameState 1 = true :=
  ⟨by decide, by decide,
   (c6_seat_roles sampleGameState (by decide) (by decide)).2.2.2.1,
   (c6_seat_roles sampleGameState (by decide) (by decide)).2.2.2.2.1⟩

/-- Claim C7: the turn indicator (the action-area render condition) is
true exactly when the snapshot is present, `current_turn_username` equals
the local username, and the self-player lookup finds a player with that
username; in every other case — snapshot absent, `current_turn_username`
null, a different player's turn, or the local user spectating — it is
false. -/
theorem c7_turn_indicator (gs : Option GameState) (u : String) :
    showActionArea gs u = true
      ↔ ∃ g, gs = some g ∧ g.current_turn_username = some u
          ∧ ∃ p ∈ g.players, p.username = u := by
  cases gs with
  | none => simp [showActionArea]
  | some g => simp [showActionArea, myPlayerState, List.find?_isSome]

/-- Claim C8: each outbound handler (player action, start-game, chat)
transmits only while the held socket reports OPEN; when it does not, the
handler sends nothing, leaves the chat input untouched (nothing is queued
anywhere for later delivery), and the chat controls are rendered
disabled. -/
theorem c8_send_only_while_open (ws : Option ReadyState)
    (a : ActionPayload) (input : String) :
    ((handlePlayerAction ws a).isSome → wsIsOpen ws = true)
      ∧ ((handleStartGame ws).isSome → wsIsOpen ws = true)
      ∧ ((handleSendMessage ws input).1.isSome → wsIsOpen ws = true)
      ∧ (wsIsOpen ws = false →
          handlePlayerAction ws a = none
            ∧ handleStartGame ws = none
            ∧ handleSendMessage ws input = (none, input)
            ∧ chatControlsDisabled ws = true) := by
  by_cases hw : wsIsOpen ws <;>
    simp [handlePlayerAction, handleStartGame, handleSendMessage,
      chatControlsDisabled, hw]

/-- Instantiation of `c8_send_only_while_open` on a closed socket:
nothing is transmitted. -/
theorem c8_send_only_while_open_witness :
    wsIsOpen (some ReadyState.CLOSED) = false
      ∧ handlePlayerAction (some ReadyState.CLOSED) ActionPayload.fold
        = none :=
  ⟨rfl, ((c8_send_only_while_open (some ReadyState.CLOSED)
      ActionPayload.fold "hi").2.2.2 rfl).1⟩

end PokerClient
